import Mathlib

/-!
Verification development for the `packed` WebAuthn attestation verifier
(`attestation/packed/packed.go` of keycloud/webauthn).

The Go source is shallowly embedded below.  Bytes are `Nat`, byte strings are
`List Nat`, Go's `map[string]interface{}` statement is an association list of
dynamically typed values, and the external `crypto/x509` primitives
(`ParseCertificate`, `CheckSignature`) are abstract oracles bundled in
`CryptoEnv`, so that theorems quantify over every possible behaviour of the
cryptographic back end.  Go's `encoding/asn1.Unmarshal` on a `*[]byte` target
(used for the AAGUID double-unwrap) is embedded concretely, following the
parsing logic of Go's `parseTagAndLength`/`parseField` (error messages are
abbreviated to stable strings).  A Go `panic` is a first-class outcome,
because the source can panic (`x5c[0]` on an empty slice).
-/

/-- A dynamically typed Go value (`interface{}`) as it can appear in the
CBOR-decoded attestation statement map: an `int64`, a `[]byte`, an
`[]interface{}`, or any other dynamic type (represented by its Go type name,
which is all the source ever inspects of such values via `%T`). -/
inductive AttValue where
  | int (n : Int)
  | bytes (b : List Nat)
  | arr (xs : List AttValue)
  | other (typeName : String)

/-- Go type name of a dynamic value, as printed by the `%T` format verb. -/
def goTypeName : AttValue → String
  | .int _ => "int64"
  | .bytes _ => "[]uint8"
  | .arr _ => "[]interface \x7b\x7d"
  | .other t => t

/-- The statement map `map[string]interface{}`; Go map keys are unique, the
first binding wins on lookup. -/
def StmtMap := List (String × AttValue)

/-- Go map lookup `m[k]` with the comma-ok form: `none` when the key is
absent. -/
def lookupKey (m : StmtMap) (k : String) : Option AttValue :=
  match m with
  | [] => none
  | kv :: rest => if kv.1 = k then some kv.2 else lookupKey rest k

/-- An elliptic curve as carried by a Go `*ecdsa.PublicKey`; the source only
compares the curve against `elliptic.P256()` and prints `Curve.Params().Name`. -/
inductive GoCurve where
  | p224
  | p256
  | p384
  | p521
  | customCurve (name : String)
deriving DecidableEq

/-- `Curve.Params().Name` of the Go standard curves. -/
def GoCurve.paramsName : GoCurve → String
  | .p224 => "P-224"
  | .p256 => "P-256"
  | .p384 => "P-384"
  | .p521 => "P-521"
  | .customCurve n => n

/-- The decoded credential public key (`crypto.PublicKey`, a dynamic type);
the source switches on `*ecdsa.PublicKey` versus everything else (printed
via `%T` in the default branch). -/
inductive COSEPublicKey where
  | ecdsaPub (curve : GoCurve) (x y : Int)
  | otherPub (typeName : String)
deriving DecidableEq

/-- `protocol.AttestedCredentialData`: the 16-byte AAGUID and the decoded
credential public key, as used by the source. -/
structure AttestedCredentialData where
  AAGUID : List Nat
  COSEKey : COSEPublicKey

/-- `protocol.AuthenticatorData`: the raw bytes (used for the signed payload)
plus the parsed attested credential data. -/
structure AuthenticatorData where
  Raw : List Nat
  AttestedCredentialData : AttestedCredentialData

/-- `protocol.Attestation`: the statement map plus authenticator data. -/
structure Attestation where
  AttStmt : StmtMap
  AuthData : AuthenticatorData

/-- Modelled from the spec: the `protocol` package (not under `src/`) exposes
typed error values; §7 of the spec says every failure is "returned to the
immediate caller as a typed result carrying a human-readable debug detail
and, where applicable, the underlying decode/crypto error as a chained
cause".  `ProtocolErrorKind` distinguishes the package's typed error values
from one another; `invalidAttestation` stands for `protocol.ErrInvalidAttestation`,
the only one this format ever uses. -/
inductive ProtocolErrorKind where
  | invalidAttestation
  | otherKind (name : String)
deriving DecidableEq

/-- Modelled from the spec: a `protocol` typed error value, carrying its
identity (`kind`), the human-readable debug text attached with
`WithDebug`/`WithDebugf`, and the optional chained cause from `WithCause`. -/
structure ProtocolError where
  kind : ProtocolErrorKind
  debug : String
  cause : Option String
deriving DecidableEq

/-- Modelled from the spec: `protocol.ErrInvalidAttestation`, the single
typed error value returned by every failure path of this format. -/
def ErrInvalidAttestation : ProtocolError :=
  { kind := .invalidAttestation, debug := "", cause := none }

/-- Modelled from the spec: `WithDebug`/`WithDebugf` attach human-readable
debug text to a typed protocol error (format-string application is modelled
as string concatenation). -/
def ProtocolError.withDebug (e : ProtocolError) (s : String) : ProtocolError :=
  { e with debug := s }

/-- Modelled from the spec: `WithCause` chains an underlying error. -/
def ProtocolError.withCause (e : ProtocolError) (c : String) : ProtocolError :=
  { e with cause := some c }

/-- Result of running a Go verification function: normal return `nil`,
normal return of an error value, or a runtime panic (Go panics are not
ordinary return values, so they are a separate outcome). -/
inductive Outcome where
  | ok
  | err (e : ProtocolError)
  | panics (msg : String)
deriving DecidableEq

/-- An `x509.SignatureAlgorithm`: the source only ever distinguishes
`x509.ECDSAWithSHA256` from whatever algorithm the certificate declares. -/
inductive SignatureAlgorithmId where
  | ecdsaWithSHA256
  | algOther (n : Nat)
deriving DecidableEq

/-- The fields of an `x509.Certificate` read by the source: `Version`,
`IsCA`, `SignatureAlgorithm`, and the extension list (`Id` as OID arcs,
`Critical`, and the extension `Value` bytes as exposed by the x509 package,
i.e. already unwrapped from the extension's outer OCTET STRING). -/
structure X509Extension where
  Id : List Nat
  Critical : Bool
  Value : List Nat
deriving DecidableEq

structure X509Certificate where
  Version : Int
  IsCA : Bool
  SignatureAlgorithm : SignatureAlgorithmId
  Extensions : List X509Extension
deriving DecidableEq

/-- The external `crypto/x509` primitives used by the source, as abstract
oracles: `x509.ParseCertificate` and `Certificate.CheckSignature` (which
takes the algorithm to use, the signed bytes, and the signature, and returns
`nil` or an error). -/
structure CryptoEnv where
  parseCertificate : List Nat → Except String X509Certificate
  checkSignature : X509Certificate → SignatureAlgorithmId → List Nat → List Nat → Except String Unit

/-- Modelled from the spec: `protocol.ES256`, the COSE algorithm identifier
-7 for ECDSA with SHA-256 (the spec's scenario writes "alg: -7 (ES256)"). -/
def ES256 : Int := -7

/-- `asn1.ObjectIdentifier{1, 3, 6, 1, 4, 1, 45724, 1, 1, 4}` — the
id-fido-gen-ce-aaguid extension OID. -/
def extensionIDFIDOGenCAAAGUID : List Nat := [1, 3, 6, 1, 4, 1, 45724, 1, 1, 4]

/-- Go `encoding/asn1` `parseBase128Int` (high-tag-number form), consuming
bytes from the front of the list; `shifted` counts consumed bytes as in the
Go loop. -/
def parseBase128 : List Nat → Nat → Nat → Except String (Nat × List Nat)
  | [], _, _ => .error "asn1: syntax error: truncated base 128 integer"
  | b :: rest, acc, shifted =>
    if shifted = 5 then
      .error "asn1: structure error: base 128 integer too large"
    else
      let acc2 := acc <<< 7
      if acc2 = 0 ∧ b = 0x80 then
        .error "asn1: syntax error: integer is not minimally encoded"
      else
        let acc3 := acc2 ||| (b &&& 0x7f)
        if b &&& 0x80 = 0 then .ok (acc3, rest)
        else parseBase128 rest acc3 (shifted + 1)

/-- A parsed ASN.1 tag-and-length header (Go's `tagAndLength`). -/
structure TagAndLength where
  cls : Nat
  isCompound : Bool
  tag : Nat
  len : Nat
deriving DecidableEq

/-- The long-form length loop of Go's `parseTagAndLength`: read `n` length
bytes, rejecting oversized, zero-leading, and non-minimal encodings. -/
def parseLenBytes : Nat → List Nat → Nat → Except String (Nat × List Nat)
  | 0, bytes, acc =>
    if acc < 0x80 then .error "asn1: structure error: non-minimal length"
    else .ok (acc, bytes)
  | _ + 1, [], _ => .error "asn1: syntax error: truncated tag or length"
  | n + 1, b :: rest, acc =>
    if acc ≥ 1 <<< 23 then .error "asn1: structure error: length too large"
    else
      let acc2 := (acc <<< 8) ||| b
      if acc2 = 0 then
        .error "asn1: structure error: superfluous leading zeros in length"
      else parseLenBytes n rest acc2

/-- Go `encoding/asn1` `parseTagAndLength`, consuming from the front of the
list (error messages abbreviated to stable strings). -/
def parseTagAndLength (bytes : List Nat) : Except String (TagAndLength × List Nat) :=
  match bytes with
  | [] => .error "asn1: syntax error: truncated tag or length"
  | b :: rest =>
    let cls := b >>> 6
    let isCompound := b &&& 0x20 = 0x20
    let tagRes : Except String (Nat × List Nat) :=
      if b &&& 0x1f = 0x1f then
        match parseBase128 rest 0 0 with
        | .error e => .error e
        | .ok tr =>
          if tr.1 < 0x1f then .error "asn1: syntax error: non-minimal tag"
          else .ok tr
      else .ok (b &&& 0x1f, rest)
    match tagRes with
    | .error e => .error e
    | .ok (tag, rest2) =>
      match rest2 with
      | [] => .error "asn1: syntax error: truncated tag or length"
      | lb :: rest3 =>
        if lb &&& 0x80 = 0 then
          .ok ({ cls := cls, isCompound := isCompound, tag := tag, len := lb &&& 0x7f }, rest3)
        else
          let numBytes := lb &&& 0x7f
          if numBytes = 0 then
            .error "asn1: syntax error: indefinite length found (not DER)"
          else
            match parseLenBytes numBytes rest3 0 with
            | .error e => .error e
            | .ok (l, rest4) =>
              .ok ({ cls := cls, isCompound := isCompound, tag := tag, len := l }, rest4)

/-- Go `asn1.Unmarshal(value, &aaguid)` with `aaguid : []byte`: expects a
universal, primitive OCTET STRING (tag 4) header and yields the content
bytes and the unconsumed rest.  Empty input is the `sequence truncated`
syntax error; a header of any other shape is a tag mismatch; content running
past the input is `data truncated` (messages abbreviated). -/
def asn1UnmarshalOctets (bytes : List Nat) : Except String (List Nat × List Nat) :=
  match bytes with
  | [] => .error "asn1: syntax error: sequence truncated"
  | _ =>
    match parseTagAndLength bytes with
    | .error e => .error e
    | .ok (t, rest) =>
      if t.cls = 0 ∧ t.tag = 4 ∧ t.isCompound = false then
        if rest.length < t.len then .error "asn1: syntax error: data truncated"
        else .ok (rest.take t.len, rest.drop t.len)
      else .error "asn1: structure error: tags do not match"

/-- The extension loop of `verifyBasic`: scan `cert.Extensions` for the
id-fido-gen-ce-aaguid OID; a critical match returns the error immediately,
a non-critical match overwrites the accumulated value (so the last match
wins), other extensions are skipped.  `acc` starts as the nil slice `[]`. -/
def scanAAGUIDExtensions : List X509Extension → List Nat → Except ProtocolError (List Nat)
  | [], acc => .ok acc
  | ext :: rest, acc =>
    if ext.Id = extensionIDFIDOGenCAAAGUID then
      if ext.Critical then
        .error (ErrInvalidAttestation.withDebug
          "extension id-fido-gen-ce-aaguid is present, but is marked as critical")
      else scanAAGUIDExtensions rest ext.Value
    else scanAAGUIDExtensions rest acc

/-- The certificate-profile and AAGUID part of `verifyBasic` (steps 2.2 and
2.3 of the source): version must be 3, `IsCA` must be false, then the
extension scan; a non-empty collected AAGUID value is unwrapped once with
`asn1.Unmarshal` (the x509 layer already removed the outer OCTET STRING) and
compared byte-for-byte with `AuthData.AttestedCredentialData.AAGUID`.
Note the `len(aaguidValue) > 0` guard: an extension present with an empty
value skips the whole AAGUID check. -/
def basicCertChecks (a : Attestation) (cert : X509Certificate) : Outcome :=
  if cert.Version ≠ 3 then
    .err (ErrInvalidAttestation.withDebug "invalid version for certificate")
  else if cert.IsCA then
    .err (ErrInvalidAttestation.withDebug "CA is set for certificate")
  else
    match scanAAGUIDExtensions cert.Extensions [] with
    | .error e => .err e
    | .ok aaguidValue =>
      if aaguidValue.length > 0 then
        match asn1UnmarshalOctets aaguidValue with
        | .error e => .err (ErrInvalidAttestation.withDebug ("invalid AAGUID: " ++ e))
        | .ok av =>
          if ¬ a.AuthData.AttestedCredentialData.AAGUID = av.1 then
            .err (ErrInvalidAttestation.withDebug "invalid AAGUID")
          else .ok
      else .ok

/-- `verifyBasic` of the source.  The `x5c` map entry is re-read and
type-asserted to `[]interface{}`; its element 0 is read WITHOUT a length
check, so an empty `x5c` slice makes `x5c[0]` panic with an index-out-of-
range runtime error.  The signed payload `append(a.AuthData.Raw,
clientDataHash...)` is inlined at both `CheckSignature` calls.  The `alg`
parameter is accepted but never used, exactly as in the source. -/
def verifyBasic (env : CryptoEnv) (a : Attestation) (clientDataHash : List Nat)
    (alg : Int) (sig : List Nat) : Outcome :=
  match lookupKey a.AttStmt "x5c" with
  | some (.arr x5c) =>
    match x5c with
    | [] => .panics "runtime error: index out of range [0] with length 0"
    | elem0 :: _ =>
      match elem0 with
      | .bytes attestnCert =>
        match env.parseCertificate attestnCert with
        | .error e =>
          .err (ErrInvalidAttestation.withDebug ("invalid x5c for packed: " ++ e))
        | .ok cert =>
          match env.checkSignature cert cert.SignatureAlgorithm
              (a.AuthData.Raw ++ clientDataHash) sig with
          | .ok _ => basicCertChecks a cert
          | .error _ =>
            match env.checkSignature cert .ecdsaWithSHA256
                (a.AuthData.Raw ++ clientDataHash) sig with
            | .ok _ => basicCertChecks a cert
            | .error e2 =>
              .err (ErrInvalidAttestation.withDebug ("invalid signature for packed: " ++ e2))
      | _ => .err (ErrInvalidAttestation.withDebug "invalid x5c for packed")
  | _ => .err (ErrInvalidAttestation.withDebug "invalid x5c for packed")

/-- `verifyECDAA` of the source: unconditionally unsupported. -/
def verifyECDAA (a : Attestation) (clientDataHash : List Nat)
    (alg : Int) (sig : List Nat) : Outcome :=
  .err (ErrInvalidAttestation.withDebug "unsupported packed format ECDAA")

/-- The error text Go's `encoding/asn1` produces when `Unmarshal` is handed
a non-pointer value (here the `[]*big.Int` slice passed by value). -/
def asn1NonPointerUnmarshalError : String :=
  "asn1: Unmarshal recipient value is non-pointer []*big.Int"

/-- `verifySelf` of the source.  On the `*ecdsa.PublicKey` branch the source
requires `alg == protocol.ES256` and curve P-256, then calls
`asn1.Unmarshal(sig, signature)` where `signature := make([]*big.Int, 2)` is
passed BY VALUE, not by pointer.  On Go 1.17+ `asn1.Unmarshal` returns an
error for a non-pointer target (on older Go, `reflect.Value.Elem` panics
instead), so the decode can never succeed: the `rest != nil` check, the
SHA-256 hash and `ecdsa.Verify` below it are unreachable for every `sig`,
and the branch always returns the `invalid ECDSA signature` error (with the
asn1 error chained via `WithCause`).  The embedding follows the Go 1.17+
behaviour. -/
def verifySelf (a : Attestation) (clientDataHash : List Nat)
    (alg : Int) (sig : List Nat) : Outcome :=
  match a.AuthData.AttestedCredentialData.COSEKey with
  | .ecdsaPub curve _x _y =>
    if alg ≠ ES256 ∨ curve ≠ GoCurve.p256 then
      .err (ErrInvalidAttestation.withDebug
        ("unsupported packed self attestation ECDSA key curve " ++ curve.paramsName))
    else
      .err ((ErrInvalidAttestation.withDebug
          ("invalid ECDSA signature: " ++ asn1NonPointerUnmarshalError)).withCause
            asn1NonPointerUnmarshalError)
  | .otherPub t =>
    .err (ErrInvalidAttestation.withDebug
      ("unsupported packed self attestation public key type " ++ t))

/-- `verifyPacked` of the source: read and type-assert `alg` and `sig`, then
dispatch on the presence of `x5c` (first) and `ecdaaKeyId` (second), falling
through to self attestation. -/
def verifyPacked (env : CryptoEnv) (a : Attestation) (clientDataHash : List Nat) : Outcome :=
  match lookupKey a.AttStmt "alg" with
  | none => .err (ErrInvalidAttestation.withDebug "missing alg for packed")
  | some rawAlg =>
    match rawAlg with
    | .int algInt =>
      match lookupKey a.AttStmt "sig" with
      | none => .err (ErrInvalidAttestation.withDebug "missing sig for packed")
      | some rawSig =>
        match rawSig with
        | .bytes sig =>
          if (lookupKey a.AttStmt "x5c").isSome then
            verifyBasic env a clientDataHash algInt sig
          else if (lookupKey a.AttStmt "ecdaaKeyId").isSome then
            verifyECDAA a clientDataHash algInt sig
          else
            verifySelf a clientDataHash algInt sig
        | _ => .err (ErrInvalidAttestation.withDebug "invalid sig for packed")
    | _ =>
      .err (ErrInvalidAttestation.withDebug
        ("invalid alg for packed, is of invalid type " ++ goTypeName rawAlg))

/-!
## String disjointness helpers

The source distinguishes its failure modes only by the debug text attached
to `protocol.ErrInvalidAttestation`, so relating an outcome to one failure
mode needs disequalities between debug strings (some with unknown suffixes).
-/

theorem append_data_get_lt (p a : String) (i : Nat) (hp : i < p.length) :
    (p ++ a).data[i]? = p.data[i]? := by
  rw [String.data_append]
  rw [List.getElem?_append_left hp]

theorem ne_append_of_get (p q b : String) (i : Nat)
    (hqlen : i < q.length) (h : p.data[i]? ≠ q.data[i]?) :
    p ≠ q ++ b := by
  intro he
  have h2 : p.data[i]? = (q ++ b).data[i]? := by rw [he]
  rw [append_data_get_lt q b i hqlen] at h2
  exact h h2

theorem append_ne_append_of_get (p q a b : String) (i : Nat)
    (hplen : i < p.length) (hqlen : i < q.length) (h : p.data[i]? ≠ q.data[i]?) :
    p ++ a ≠ q ++ b := by
  intro he
  have h2 : (p ++ a).data[i]? = (q ++ b).data[i]? := by rw [he]
  rw [append_data_get_lt p a i hplen, append_data_get_lt q b i hqlen] at h2
  exact h h2

theorem string_append_left_cancel (p a b : String) (h : p ++ a = p ++ b) : a = b := by
  have h2 : (p ++ a).data = (p ++ b).data := by rw [h]
  rw [String.data_append, String.data_append] at h2
  exact String.ext (List.append_cancel_left h2)

/-!
## Concrete fixtures

Shared concrete inputs used by counterexamples and witnesses.
-/

/-- A minimal X.509v3 non-CA certificate with no extensions. -/
def certMinimal : X509Certificate :=
  { Version := 3, IsCA := false, SignatureAlgorithm := .algOther 0, Extensions := [] }

/-- A benign crypto oracle: every byte string parses to `certMinimal` and
every signature check succeeds. -/
def envAllValid : CryptoEnv :=
  { parseCertificate := fun _ => .ok certMinimal,
    checkSignature := fun _ _ _ _ => .ok () }

/-- Authenticator data with an all-zero AAGUID and a P-256 credential key. -/
def adSample : AuthenticatorData :=
  { Raw := [1, 2, 3],
    AttestedCredentialData := { AAGUID := List.replicate 16 0, COSEKey := .ecdsaPub .p256 5 7 } }

/-!
## Claims
-/

/-- C1: the spec's self-attestation scenario — statement `{alg: -7 (ES256),
sig: DER(r, s)}` with neither `x5c` nor `ecdaaKeyId` and a matching P-256
credential key — is claimed to succeed, and the zeroed-sig variant to fail
with invalid-signature.  The code instead hands `asn1.Unmarshal` its
`[]*big.Int` output slice by value (not by pointer), so the decode fails for
every `sig` (an `invalid ECDSA signature` error on Go 1.17+, a reflect panic
on older Go): both the well-formed DER signature `(r, s) = (1, 2)` and the
zeroed signature produce the same decode error, for every behaviour of the
cryptographic oracles, and success is unreachable. -/
theorem c1_self_scenario_never_succeeds (env : CryptoEnv) (cdh raw aag : List Nat) (x y : Int) :
    (verifyPacked env
        ⟨[("alg", .int (-7)), ("sig", .bytes [0x30, 6, 2, 1, 1, 2, 1, 2])],
          ⟨raw, ⟨aag, .ecdsaPub .p256 x y⟩⟩⟩ cdh =
      .err ((ErrInvalidAttestation.withDebug
        ("invalid ECDSA signature: " ++ asn1NonPointerUnmarshalError)).withCause
          asn1NonPointerUnmarshalError))
    ∧ (verifyPacked env
        ⟨[("alg", .int (-7)), ("sig", .bytes [0, 0, 0, 0, 0, 0, 0, 0])],
          ⟨raw, ⟨aag, .ecdsaPub .p256 x y⟩⟩⟩ cdh =
      .err ((ErrInvalidAttestation.withDebug
        ("invalid ECDSA signature: " ++ asn1NonPointerUnmarshalError)).withCause
          asn1NonPointerUnmarshalError)) :=
  ⟨rfl, rfl⟩

/-- C2: the claim says malformed input never causes a panic, in particular a
statement whose `x5c` field is an empty sequence.  The code reads `x5c[0]`
without a length check, so an empty `x5c` slice panics with an
index-out-of-range runtime error, for every crypto oracle, every
authenticator data value and every client-data hash. -/
theorem c2_empty_x5c_panics (env : CryptoEnv) (ad : AuthenticatorData) (cdh : List Nat) :
    verifyPacked env ⟨[("alg", .int (-7)), ("sig", .bytes []), ("x5c", .arr [])], ad⟩ cdh =
      .panics "runtime error: index out of range [0] with length 0" :=
  rfl

/-- C4 counterexample: a statement containing `ecdaaKeyId` together with
`x5c` (and well-typed `alg`/`sig`) is routed to the basic path — `x5c` is
checked first — and with a benign oracle it SUCCEEDS, contradicting the
claim that any statement containing `ecdaaKeyId` always fails with the
unsupported-format error independently of the other fields. -/
theorem c4_counterexample :
    verifyPacked envAllValid
      ⟨[("alg", .int (-7)), ("sig", .bytes []), ("x5c", .arr [.bytes []]),
        ("ecdaaKeyId", .bytes [])], adSample⟩ [] = .ok :=
  rfl

/-- C4 (amended): every statement with a well-typed `alg` and `sig`, WITHOUT
`x5c`, and containing `ecdaaKeyId` fails with the unsupported-format error,
with or without a valid signature and independently of the remaining fields
(the conclusion does not depend on the crypto oracles). -/
theorem c4_ecdaa_unsupported (env : CryptoEnv) (a : Attestation) (cdh : List Nat)
    (n : Int) (s : List Nat) (v : AttValue)
    (halg : lookupKey a.AttStmt "alg" = some (.int n))
    (hsig : lookupKey a.AttStmt "sig" = some (.bytes s))
    (hx5c : lookupKey a.AttStmt "x5c" = none)
    (hecdaa : lookupKey a.AttStmt "ecdaaKeyId" = some v) :
    verifyPacked env a cdh =
      .err (ErrInvalidAttestation.withDebug "unsupported packed format ECDAA") := by
  unfold verifyPacked
  rw [halg, hsig, hx5c, hecdaa]
  rfl

/-- C4 witness: the amended theorem applied to a concrete ECDAA statement. -/
theorem c4_ecdaa_unsupported_witness :
    verifyPacked envAllValid
      ⟨[("alg", .int (-7)), ("sig", .bytes []), ("ecdaaKeyId", .bytes [1])], adSample⟩ [] =
      .err (ErrInvalidAttestation.withDebug "unsupported packed format ECDAA") :=
  c4_ecdaa_unsupported envAllValid
    ⟨[("alg", .int (-7)), ("sig", .bytes []), ("ecdaaKeyId", .bytes [1])], adSample⟩ []
    (-7) [] (.bytes [1]) rfl rfl rfl rfl

/-- C5: a statement missing `alg` or `sig`, or with a value of the wrong
dynamic type for either, fails with the corresponding missing-field /
wrong-type error.  The conclusion is a constant that does not mention the
crypto oracles and holds for EVERY oracle, which is the extensional form of
"no cryptographic computation is ever reached". -/
theorem c5_field_checks (env : CryptoEnv) (a : Attestation) (cdh : List Nat) :
    (lookupKey a.AttStmt "alg" = none →
      verifyPacked env a cdh = .err (ErrInvalidAttestation.withDebug "missing alg for packed"))
    ∧ (∀ v, lookupKey a.AttStmt "alg" = some v → (∀ n, v ≠ .int n) →
      verifyPacked env a cdh =
        .err (ErrInvalidAttestation.withDebug
          ("invalid alg for packed, is of invalid type " ++ goTypeName v)))
    ∧ (∀ n, lookupKey a.AttStmt "alg" = some (.int n) → lookupKey a.AttStmt "sig" = none →
      verifyPacked env a cdh = .err (ErrInvalidAttestation.withDebug "missing sig for packed"))
    ∧ (∀ n v, lookupKey a.AttStmt "alg" = some (.int n) → lookupKey a.AttStmt "sig" = some v →
      (∀ b, v ≠ .bytes b) →
      verifyPacked env a cdh = .err (ErrInvalidAttestation.withDebug "invalid sig for packed")) := by
  refine ⟨?_, ?_, ?_, ?_⟩
  · intro h
    unfold verifyPacked
    rw [h]
  · intro v h hne
    unfold verifyPacked
    rw [h]
    cases v with
    | int n => exact absurd rfl (hne n)
    | bytes b => rfl
    | arr xs => rfl
    | other t => rfl
  · intro n h1 h2
    unfold verifyPacked
    rw [h1, h2]
  · intro n v h1 h2 hne
    unfold verifyPacked
    rw [h1, h2]
    cases v with
    | int m => rfl
    | bytes b => exact absurd rfl (hne b)
    | arr xs => rfl
    | other t => rfl

/-- C5 witness: the four field-check cases at concrete statements. -/
theorem c5_field_checks_witness :
    (verifyPacked envAllValid ⟨[], adSample⟩ [] =
      .err (ErrInvalidAttestation.withDebug "missing alg for packed"))
    ∧ (verifyPacked envAllValid ⟨[("alg", .bytes [])], adSample⟩ [] =
      .err (ErrInvalidAttestation.withDebug "invalid alg for packed, is of invalid type []uint8"))
    ∧ (verifyPacked envAllValid ⟨[("alg", .int 1)], adSample⟩ [] =
      .err (ErrInvalidAttestation.withDebug "missing sig for packed"))
    ∧ (verifyPacked envAllValid ⟨[("alg", .int 1), ("sig", .int 0)], adSample⟩ [] =
      .err (ErrInvalidAttestation.withDebug "invalid sig for packed")) := by
  refine ⟨(c5_field_checks envAllValid ⟨[], adSample⟩ []).1 rfl, ?_,
    (c5_field_checks envAllValid ⟨[("alg", .int 1)], adSample⟩ []).2.2.1 1 rfl rfl, ?_⟩
  · have h := (c5_field_checks envAllValid ⟨[("alg", .bytes [])], adSample⟩ []).2.1 (.bytes []) rfl
      (fun n hn => AttValue.noConfusion hn)
    simpa using h
  · exact (c5_field_checks envAllValid ⟨[("alg", .int 1), ("sig", .int 0)], adSample⟩ []).2.2.2
      1 (.int 0) rfl rfl (fun b hb => AttValue.noConfusion hb)

/-!
## Helper lemmas about the basic path
-/

/-- Reduction of `verifyBasic` once the `x5c` entry has the well-typed
non-empty shape and the leaf certificate parses: what remains is the
primary/fallback signature check followed by the certificate checks. -/
theorem verifyBasic_after_parse (env : CryptoEnv) (a : Attestation) (cdh : List Nat)
    (alg : Int) (sig : List Nat) (leaf : List Nat) (restCerts : List AttValue)
    (cert : X509Certificate)
    (hx : lookupKey a.AttStmt "x5c" = some (.arr (.bytes leaf :: restCerts)))
    (hp : env.parseCertificate leaf = .ok cert) :
    verifyBasic env a cdh alg sig =
      (match env.checkSignature cert cert.SignatureAlgorithm (a.AuthData.Raw ++ cdh) sig with
       | .ok _ => basicCertChecks a cert
       | .error _ =>
         match env.checkSignature cert .ecdsaWithSHA256 (a.AuthData.Raw ++ cdh) sig with
         | .ok _ => basicCertChecks a cert
         | .error e2 =>
           .err (ErrInvalidAttestation.withDebug ("invalid signature for packed: " ++ e2))) := by
  unfold verifyBasic
  simp only [hx, hp]

/-- The extension scan can only fail with the critical-extension error. -/
theorem scanAAGUIDExtensions_error (exts : List X509Extension) (acc : List Nat)
    (e : ProtocolError) (h : scanAAGUIDExtensions exts acc = .error e) :
    e = ErrInvalidAttestation.withDebug
      "extension id-fido-gen-ce-aaguid is present, but is marked as critical" := by
  induction exts generalizing acc with
  | nil => exact absurd h (by simp [scanAAGUIDExtensions])
  | cons ext rest ih =>
    unfold scanAAGUIDExtensions at h
    split at h
    · split at h
      · exact (Except.error.inj h).symm
      · exact ih _ h
    · exact ih _ h

/-- Reduction of `basicCertChecks` when the certificate is an X.509v3
non-CA certificate and the extension scan collected a non-empty AAGUID
extension value: what remains is the decode-and-compare step. -/
theorem basicCertChecks_eq_aaguidCheck (a : Attestation) (cert : X509Certificate)
    (v : List Nat) (hv3 : cert.Version = 3) (hca : cert.IsCA = false)
    (hscan : scanAAGUIDExtensions cert.Extensions [] = .ok v) (hne : v ≠ []) :
    basicCertChecks a cert =
      (match asn1UnmarshalOctets v with
       | .error e => .err (ErrInvalidAttestation.withDebug ("invalid AAGUID: " ++ e))
       | .ok av =>
         if ¬ a.AuthData.AttestedCredentialData.AAGUID = av.1 then
           .err (ErrInvalidAttestation.withDebug "invalid AAGUID")
         else .ok) := by
  unfold basicCertChecks
  rw [hv3, hca, hscan]
  have hlen : v.length > 0 := List.length_pos.mpr hne
  simp [hlen]

/-- None of the certificate-profile or AAGUID failure messages coincides
with the invalid-signature message, whatever the unknown error suffix. -/
theorem basicCertChecks_ne_invalidSignature (a : Attestation) (cert : X509Certificate)
    (m : String) :
    basicCertChecks a cert ≠
      .err (ErrInvalidAttestation.withDebug ("invalid signature for packed: " ++ m)) := by
  have hver : ("invalid version for certificate" : String) ≠
      "invalid signature for packed: " ++ m :=
    ne_append_of_get _ _ _ 8 (by decide) (by decide)
  have hcaMsg : ("CA is set for certificate" : String) ≠
      "invalid signature for packed: " ++ m :=
    ne_append_of_get _ _ _ 0 (by decide) (by decide)
  have hcrit : ("extension id-fido-gen-ce-aaguid is present, but is marked as critical" : String) ≠
      "invalid signature for packed: " ++ m :=
    ne_append_of_get _ _ _ 0 (by decide) (by decide)
  have haagDec : ∀ e : String, "invalid AAGUID: " ++ e ≠ "invalid signature for packed: " ++ m :=
    fun e => append_ne_append_of_get _ _ _ _ 8 (by decide) (by decide) (by decide)
  have haagMis : ("invalid AAGUID" : String) ≠ "invalid signature for packed: " ++ m :=
    ne_append_of_get _ _ _ 8 (by decide) (by decide)
  intro h
  unfold basicCertChecks at h
  split at h
  · exact hver (congrArg ProtocolError.debug (Outcome.err.inj h))
  · split at h
    · exact hcaMsg (congrArg ProtocolError.debug (Outcome.err.inj h))
    · split at h
      next e heq =>
        have he := scanAAGUIDExtensions_error _ _ _ heq
        have hd := congrArg ProtocolError.debug (Outcome.err.inj h)
        rw [he] at hd
        exact hcrit hd
      next v heq =>
        split at h
        · split at h
          next msg hdec => exact haagDec msg (congrArg ProtocolError.debug (Outcome.err.inj h))
          next av hdec =>
            split at h
            · exact haagMis (congrArg ProtocolError.debug (Outcome.err.inj h))
            · exact Outcome.noConfusion h
        · exact Outcome.noConfusion h

/-- An X.509v3 CA certificate whose own structure is otherwise benign. -/
def certCA : X509Certificate :=
  { Version := 3, IsCA := true, SignatureAlgorithm := .algOther 0, Extensions := [] }

/-- Oracle: parsing yields `certCA` and every signature check FAILS. -/
def envCAFailSig : CryptoEnv :=
  { parseCertificate := fun _ => .ok certCA,
    checkSignature := fun _ _ _ _ => .error "verification error" }

/-- Oracle: parsing yields `certCA` and every signature check succeeds. -/
def envCAOkSig : CryptoEnv :=
  { parseCertificate := fun _ => .ok certCA,
    checkSignature := fun _ _ _ _ => .ok () }

/-- C3 counterexample: a basic-path statement whose leaf certificate has
`IsCA = true` but whose signature is cryptographically INVALID fails with the
invalid-signature error, not the invalid-certificate-profile error: the code
verifies the signature before it looks at the certificate profile, so the
claim's "regardless of whether the signature is valid or invalid" is false. -/
theorem c3_counterexample :
    (verifyBasic envCAFailSig ⟨[("x5c", .arr [.bytes []])], adSample⟩ [] (-7) [] =
      .err (ErrInvalidAttestation.withDebug "invalid signature for packed: verification error"))
    ∧ (verifyBasic envCAFailSig ⟨[("x5c", .arr [.bytes []])], adSample⟩ [] (-7) [] ≠
      .err (ErrInvalidAttestation.withDebug "CA is set for certificate")) :=
  ⟨rfl, by decide⟩

/-- C3 (amended): on the basic path with a parsed leaf certificate having
`IsCA = true`, IF the signature check succeeds (under the declared algorithm
or the ECDSA-SHA-256 fallback) the result is the invalid-certificate-profile
error (the CA-flag debug text, or the version text when the version is also
wrong — both are the spec's invalid-certificate-profile kind); and in every
case — valid or invalid signature — verification fails. -/
theorem c3_ca_certificate (env : CryptoEnv) (a : Attestation) (cdh : List Nat)
    (alg : Int) (sig : List Nat) (leaf : List Nat) (restCerts : List AttValue)
    (cert : X509Certificate)
    (hx : lookupKey a.AttStmt "x5c" = some (.arr (.bytes leaf :: restCerts)))
    (hp : env.parseCertificate leaf = .ok cert)
    (hca : cert.IsCA = true) :
    ((env.checkSignature cert cert.SignatureAlgorithm (a.AuthData.Raw ++ cdh) sig = .ok () ∨
      env.checkSignature cert .ecdsaWithSHA256 (a.AuthData.Raw ++ cdh) sig = .ok ()) →
      verifyBasic env a cdh alg sig =
        .err (ErrInvalidAttestation.withDebug
          (if cert.Version = 3 then "CA is set for certificate"
           else "invalid version for certificate")))
    ∧ verifyBasic env a cdh alg sig ≠ .ok := by
  rw [verifyBasic_after_parse env a cdh alg sig leaf restCerts cert hx hp]
  have hbcc : basicCertChecks a cert =
      .err (ErrInvalidAttestation.withDebug
        (if cert.Version = 3 then "CA is set for certificate"
         else "invalid version for certificate")) := by
    unfold basicCertChecks
    by_cases hv : cert.Version = 3
    · simp [hv, hca]
    · simp [hv]
  constructor
  · rintro (h | h)
    · simp only [h]
      exact hbcc
    · cases hps : env.checkSignature cert cert.SignatureAlgorithm (a.AuthData.Raw ++ cdh) sig with
      | ok u => simp only [hps]; exact hbcc
      | error e1 => simp only [hps, h]; exact hbcc
  · cases hps : env.checkSignature cert cert.SignatureAlgorithm (a.AuthData.Raw ++ cdh) sig with
    | ok u =>
      simp only [hps]
      rw [hbcc]
      exact fun hcontr => Outcome.noConfusion hcontr
    | error e1 =>
      cases hfb : env.checkSignature cert .ecdsaWithSHA256 (a.AuthData.Raw ++ cdh) sig with
      | ok u =>
        simp only [hps, hfb]
        rw [hbcc]
        exact fun hcontr => Outcome.noConfusion hcontr
      | error e2 =>
        simp only [hps, hfb]
        exact fun hcontr => Outcome.noConfusion hcontr

/-- C3 witness: the amended theorem at a concrete CA certificate with a
passing signature check yields the CA-flag profile error, and the outcome is
never success. -/
theorem c3_ca_certificate_witness :
    (verifyBasic envCAOkSig ⟨[("x5c", .arr [.bytes []])], adSample⟩ [] (-7) [] =
      .err (ErrInvalidAttestation.withDebug "CA is set for certificate"))
    ∧ verifyBasic envCAOkSig ⟨[("x5c", .arr [.bytes []])], adSample⟩ [] (-7) [] ≠ .ok := by
  have h := c3_ca_certificate envCAOkSig ⟨[("x5c", .arr [.bytes []])], adSample⟩ [] (-7) []
    [] [] certCA rfl rfl rfl
  exact ⟨by simpa using h.1 (Or.inl rfl), h.2⟩

/-- A certificate carrying the id-fido-gen-ce-aaguid extension whose value
decodes to sixteen 0xAA bytes (differing from `adSample`'s zero AAGUID). -/
def certMismatchAAGUID : X509Certificate :=
  { Version := 3, IsCA := false, SignatureAlgorithm := .algOther 0,
    Extensions := [⟨extensionIDFIDOGenCAAAGUID, false, [4, 16] ++ List.replicate 16 0xAA⟩] }

/-- Oracle: parsing yields `certMismatchAAGUID`, signature checks succeed. -/
def envMismatchAAGUID : CryptoEnv :=
  { parseCertificate := fun _ => .ok certMismatchAAGUID,
    checkSignature := fun _ _ _ _ => .ok () }

/-- C6: on the basic path, when the leaf certificate (an X.509v3 non-CA
certificate) carries the device-model extension whose value decodes to bytes
differing from `AuthData.AttestedCredentialData.AAGUID`, verification fails
with the aaguid-mismatch error even though the signature check succeeded
(under either the declared algorithm or the fallback). -/
theorem c6_aaguid_mismatch (env : CryptoEnv) (a : Attestation) (cdh : List Nat)
    (alg : Int) (sig : List Nat) (leaf : List Nat) (restCerts : List AttValue)
    (cert : X509Certificate) (v d vrest : List Nat)
    (hx : lookupKey a.AttStmt "x5c" = some (.arr (.bytes leaf :: restCerts)))
    (hp : env.parseCertificate leaf = .ok cert)
    (hv3 : cert.Version = 3) (hca : cert.IsCA = false)
    (hsig : env.checkSignature cert cert.SignatureAlgorithm (a.AuthData.Raw ++ cdh) sig = .ok ()
      ∨ env.checkSignature cert .ecdsaWithSHA256 (a.AuthData.Raw ++ cdh) sig = .ok ())
    (hscan : scanAAGUIDExtensions cert.Extensions [] = .ok v)
    (hne : v ≠ [])
    (hdec : asn1UnmarshalOctets v = .ok (d, vrest))
    (hmis : a.AuthData.AttestedCredentialData.AAGUID ≠ d) :
    verifyBasic env a cdh alg sig = .err (ErrInvalidAttestation.withDebug "invalid AAGUID") := by
  rw [verifyBasic_after_parse env a cdh alg sig leaf restCerts cert hx hp]
  have hbcc : basicCertChecks a cert =
      .err (ErrInvalidAttestation.withDebug "invalid AAGUID") := by
    rw [basicCertChecks_eq_aaguidCheck a cert v hv3 hca hscan hne]
    simp only [hdec]
    simp [hmis]
  rcases hsig with h | h
  · simp only [h]
    exact hbcc
  · cases hps : env.checkSignature cert cert.SignatureAlgorithm (a.AuthData.Raw ++ cdh) sig with
    | ok u => simp only [hps]; exact hbcc
    | error e1 => simp only [hps, h]; exact hbcc

/-- C6 witness: a valid signature, a conforming certificate, and a
device-model extension decoding to sixteen 0xAA bytes against a zero AAGUID
yield exactly the aaguid-mismatch error. -/
theorem c6_aaguid_mismatch_witness :
    verifyBasic envMismatchAAGUID ⟨[("x5c", .arr [.bytes []])], adSample⟩ [] (-7) [] =
      .err (ErrInvalidAttestation.withDebug "invalid AAGUID") :=
  c6_aaguid_mismatch envMismatchAAGUID ⟨[("x5c", .arr [.bytes []])], adSample⟩ [] (-7) []
    [] [] certMismatchAAGUID ([4, 16] ++ List.replicate 16 0xAA) (List.replicate 16 0xAA) []
    rfl rfl rfl rfl (Or.inl rfl) rfl (by decide) rfl (by decide)

/-- C7: on the basic path, signature verification first uses the leaf
certificate's declared algorithm over `AuthData.Raw ++ clientDataHash`; when
that check succeeds the fallback is never consulted and verification
continues with the certificate checks; when it fails, exactly one retry with
ECDSA-with-SHA-256 happens; and the invalid-signature error is returned if
and only if both attempts fail (with the second attempt's message). -/
theorem c7_signature_fallback (env : CryptoEnv) (a : Attestation) (cdh : List Nat)
    (alg : Int) (sig : List Nat) (leaf : List Nat) (restCerts : List AttValue)
    (cert : X509Certificate)
    (hx : lookupKey a.AttStmt "x5c" = some (.arr (.bytes leaf :: restCerts)))
    (hp : env.parseCertificate leaf = .ok cert) :
    (env.checkSignature cert cert.SignatureAlgorithm (a.AuthData.Raw ++ cdh) sig = .ok () →
      verifyBasic env a cdh alg sig = basicCertChecks a cert)
    ∧ (∀ e1, env.checkSignature cert cert.SignatureAlgorithm (a.AuthData.Raw ++ cdh) sig = .error e1 →
      env.checkSignature cert .ecdsaWithSHA256 (a.AuthData.Raw ++ cdh) sig = .ok () →
      verifyBasic env a cdh alg sig = basicCertChecks a cert)
    ∧ (∀ m, verifyBasic env a cdh alg sig =
          .err (ErrInvalidAttestation.withDebug ("invalid signature for packed: " ++ m)) ↔
        ((∃ e1, env.checkSignature cert cert.SignatureAlgorithm (a.AuthData.Raw ++ cdh) sig
            = .error e1)
          ∧ env.checkSignature cert .ecdsaWithSHA256 (a.AuthData.Raw ++ cdh) sig = .error m)) := by
  rw [verifyBasic_after_parse env a cdh alg sig leaf restCerts cert hx hp]
  refine ⟨?_, ?_, ?_⟩
  · intro h
    simp only [h]
  · intro e1 h1 h2
    simp only [h1, h2]
  · intro m
    constructor
    · intro h
      cases hps : env.checkSignature cert cert.SignatureAlgorithm (a.AuthData.Raw ++ cdh) sig with
      | ok u =>
        simp only [hps] at h
        exact absurd h (basicCertChecks_ne_invalidSignature a cert m)
      | error e1 =>
        cases hfb : env.checkSignature cert .ecdsaWithSHA256 (a.AuthData.Raw ++ cdh) sig with
        | ok u =>
          simp only [hps, hfb] at h
          exact absurd h (basicCertChecks_ne_invalidSignature a cert m)
        | error e2 =>
          simp only [hps, hfb] at h
          have hdm : "invalid signature for packed: " ++ e2 =
              "invalid signature for packed: " ++ m :=
            congrArg ProtocolError.debug (Outcome.err.inj h)
          have he : e2 = m := string_append_left_cancel _ _ _ hdm
          exact ⟨⟨e1, rfl⟩, he ▸ rfl⟩
    · rintro ⟨⟨e1, h1⟩, h2⟩
      simp only [h1, h2]

/-- C7 witness: with an oracle whose primary check succeeds, the basic path
equals the certificate checks continuation. -/
theorem c7_signature_fallback_witness :
    verifyBasic envAllValid ⟨[("x5c", .arr [.bytes []])], adSample⟩ [] (-7) [] =
      basicCertChecks ⟨[("x5c", .arr [.bytes []])], adSample⟩ certMinimal :=
  (c7_signature_fallback envAllValid ⟨[("x5c", .arr [.bytes []])], adSample⟩ [] (-7) []
    [] [] certMinimal rfl rfl).1 rfl

/-- A certificate whose id-fido-gen-ce-aaguid extension has an EMPTY value. -/
def certEmptyAAGUIDExt : X509Certificate :=
  { Version := 3, IsCA := false, SignatureAlgorithm := .algOther 0,
    Extensions := [{ Id := extensionIDFIDOGenCAAAGUID, Critical := false, Value := [] }] }

/-- Oracle: parsing yields `certEmptyAAGUIDExt`, signature checks succeed. -/
def envEmptyAAGUIDExt : CryptoEnv :=
  { parseCertificate := fun _ => .ok certEmptyAAGUIDExt,
    checkSignature := fun _ _ _ _ => .ok () }

/-- A certificate whose id-fido-gen-ce-aaguid extension value is `[5, 0]`
(an ASN.1 NULL), which fails to decode as an OCTET STRING. -/
def certBadAAGUIDExt : X509Certificate :=
  { Version := 3, IsCA := false, SignatureAlgorithm := .algOther 0,
    Extensions := [{ Id := extensionIDFIDOGenCAAAGUID, Critical := false, Value := [5, 0] }] }

/-- Oracle: parsing yields `certBadAAGUIDExt`, signature checks succeed. -/
def envBadAAGUIDExt : CryptoEnv :=
  { parseCertificate := fun _ => .ok certBadAAGUIDExt,
    checkSignature := fun _ _ _ _ => .ok () }

/-- C9 counterexample: the device-model extension is PRESENT with an empty
value — which certainly does not decode as a DER OCTET STRING containing a
16-byte identifier — yet verification SUCCEEDS, because the code detects the
extension through `len(aaguidValue) > 0` and an empty value skips the whole
AAGUID binding check.  This contradicts the claim's "including an empty
extension value ... rather than succeeding with the check skipped". -/
theorem c9_counterexample :
    verifyBasic envEmptyAAGUIDExt ⟨[("x5c", .arr [.bytes []])], adSample⟩ [] (-7) [] = .ok :=
  rfl

/-- C9 (amended): on the basic path (X.509v3, non-CA, passing signature
check), whenever the device-model extension is present with a NON-EMPTY
value that fails to decode as a DER OCTET STRING, verification fails with
the invalid-aaguid-encoding error carrying the decode message; an extension
with an empty value is treated as absent and the binding check is skipped. -/
theorem c9_aaguid_decode_error (env : CryptoEnv) (a : Attestation) (cdh : List Nat)
    (alg : Int) (sig : List Nat) (leaf : List Nat) (restCerts : List AttValue)
    (cert : X509Certificate) (v : List Nat) (msg : String)
    (hx : lookupKey a.AttStmt "x5c" = some (.arr (.bytes leaf :: restCerts)))
    (hp : env.parseCertificate leaf = .ok cert)
    (hv3 : cert.Version = 3) (hca : cert.IsCA = false)
    (hsig : env.checkSignature cert cert.SignatureAlgorithm (a.AuthData.Raw ++ cdh) sig = .ok ()
      ∨ env.checkSignature cert .ecdsaWithSHA256 (a.AuthData.Raw ++ cdh) sig = .ok ())
    (hscan : scanAAGUIDExtensions cert.Extensions [] = .ok v)
    (hne : v ≠ [])
    (hdec : asn1UnmarshalOctets v = .error msg) :
    verifyBasic env a cdh alg sig =
      .err (ErrInvalidAttestation.withDebug ("invalid AAGUID: " ++ msg)) := by
  rw [verifyBasic_after_parse env a cdh alg sig leaf restCerts cert hx hp]
  have hbcc : basicCertChecks a cert =
      .err (ErrInvalidAttestation.withDebug ("invalid AAGUID: " ++ msg)) := by
    rw [basicCertChecks_eq_aaguidCheck a cert v hv3 hca hscan hne]
    simp only [hdec]
  rcases hsig with h | h
  · simp only [h]
    exact hbcc
  · cases hps : env.checkSignature cert cert.SignatureAlgorithm (a.AuthData.Raw ++ cdh) sig with
    | ok u => simp only [hps]; exact hbcc
    | error e1 => simp only [hps, h]; exact hbcc

/-- C9 witness: an extension value `[5, 0]` (ASN.1 NULL) fails the OCTET
STRING decode and verification returns the invalid-aaguid-encoding error. -/
theorem c9_aaguid_decode_error_witness :
    verifyBasic envBadAAGUIDExt ⟨[("x5c", .arr [.bytes []])], adSample⟩ [] (-7) [] =
      .err (ErrInvalidAttestation.withDebug
        ("invalid AAGUID: " ++ "asn1: structure error: tags do not match")) :=
  c9_aaguid_decode_error envBadAAGUIDExt ⟨[("x5c", .arr [.bytes []])], adSample⟩ [] (-7) []
    [] [] certBadAAGUIDExt [5, 0] "asn1: structure error: tags do not match"
    rfl rfl rfl rfl (Or.inl rfl) rfl (by decide) rfl

/-- C8: the claim says DER-encoding any (r, s) pair as `SEQUENCE { INTEGER r,
INTEGER s }` and feeding it through the self-attestation decode recovers
(r, s) and reaches the final `ecdsa.Verify` step without a decode error.
The code passes the `[]*big.Int` decode target to `asn1.Unmarshal` BY VALUE,
so the decode errors out for every input (and panics on pre-1.17 Go): here
the well-formed DER encoding `30 06 02 01 01 02 01 02` of (r, s) = (1, 2)
yields the decode error, for every statement map and authenticator data with
a P-256 key — (r, s) is never recovered and `ecdsa.Verify` is unreachable. -/
theorem c8_der_roundtrip_never_decodes (st : StmtMap) (cdh raw aag : List Nat) (x y : Int) :
    verifySelf ⟨st, ⟨raw, ⟨aag, .ecdsaPub .p256 x y⟩⟩⟩ cdh (-7)
        [0x30, 0x06, 0x02, 0x01, 0x01, 0x02, 0x01, 0x02] =
      .err ((ErrInvalidAttestation.withDebug
        ("invalid ECDSA signature: " ++ asn1NonPointerUnmarshalError)).withCause
          asn1NonPointerUnmarshalError) :=
  rfl

/-!
## Every failure is the same typed error (C10)
-/

/-- Every error returned by the certificate checks is the invalid-attestation
typed error. -/
theorem basicCertChecks_err_kind (a : Attestation) (cert : X509Certificate)
    (e : ProtocolError) (h : basicCertChecks a cert = .err e) :
    e.kind = ProtocolErrorKind.invalidAttestation := by
  unfold basicCertChecks at h
  split at h
  · rw [← Outcome.err.inj h]
    rfl
  · split at h
    · rw [← Outcome.err.inj h]
      rfl
    · split at h
      next e2 heq =>
        rw [← Outcome.err.inj h, scanAAGUIDExtensions_error _ _ _ heq]
        rfl
      next v heq =>
        split at h
        · split at h
          next msg hdec =>
            rw [← Outcome.err.inj h]
            rfl
          next av hdec =>
            split at h
            · rw [← Outcome.err.inj h]
              rfl
            · exact Outcome.noConfusion h
        · exact Outcome.noConfusion h

/-- Every error returned by the basic path is the invalid-attestation typed
error. -/
theorem verifyBasic_err_kind (env : CryptoEnv) (a : Attestation) (cdh : List Nat)
    (alg : Int) (sig : List Nat) (e : ProtocolError)
    (h : verifyBasic env a cdh alg sig = .err e) :
    e.kind = ProtocolErrorKind.invalidAttestation := by
  unfold verifyBasic at h
  split at h
  · split at h
    · exact Outcome.noConfusion h
    · split at h
      · split at h
        · rw [← Outcome.err.inj h]
          rfl
        · split at h
          · exact basicCertChecks_err_kind _ _ _ h
          · split at h
            · exact basicCertChecks_err_kind _ _ _ h
            · rw [← Outcome.err.inj h]
              rfl
      · rw [← Outcome.err.inj h]
        rfl
  · rw [← Outcome.err.inj h]
    rfl

/-- Every error returned by the self path is the invalid-attestation typed
error. -/
theorem verifySelf_err_kind (a : Attestation) (cdh : List Nat) (alg : Int)
    (sig : List Nat) (e : ProtocolError)
    (h : verifySelf a cdh alg sig = .err e) :
    e.kind = ProtocolErrorKind.invalidAttestation := by
  unfold verifySelf at h
  split at h
  · split at h
    · rw [← Outcome.err.inj h]
      rfl
    · rw [← Outcome.err.inj h]
      rfl
  · rw [← Outcome.err.inj h]
    rfl

/-- C10: every failure of `verifyPacked`, on every path — dispatcher field
checks, basic, ECDAA, self — returns the one typed error value
`protocol.ErrInvalidAttestation` (distinguished only by its attached debug
text): whatever error value a run yields, its typed identity is
invalid-attestation, so the spec's ten error kinds are not distinguishable
from the returned error's type alone. -/
theorem c10_single_error_type (env : CryptoEnv) (a : Attestation) (cdh : List Nat)
    (e : ProtocolError) (h : verifyPacked env a cdh = .err e) :
    e.kind = ProtocolErrorKind.invalidAttestation := by
  unfold verifyPacked at h
  split at h
  · rw [← Outcome.err.inj h]
    rfl
  · split at h
    · split at h
      · rw [← Outcome.err.inj h]
        rfl
      · split at h
        · split at h
          · exact verifyBasic_err_kind _ _ _ _ _ _ h
          · split at h
            · unfold verifyECDAA at h
              rw [← Outcome.err.inj h]
              rfl
            · exact verifySelf_err_kind _ _ _ _ _ h
        · rw [← Outcome.err.inj h]
          rfl
    · rw [← Outcome.err.inj h]
      rfl

/-- C10 witness: a concrete failing run (missing `alg`) produces an error
whose typed identity is invalid-attestation. -/
theorem c10_single_error_type_witness :
    (ErrInvalidAttestation.withDebug "missing alg for packed").kind =
      ProtocolErrorKind.invalidAttestation :=
  c10_single_error_type envAllValid ⟨[], adSample⟩ []
    (ErrInvalidAttestation.withDebug "missing alg for packed") rfl
